import Mathlib

/-!
# Verification of the vayu model-resolution and caching layer

Shallow embedding of `src/whisper_mlx/lightning.py` and
`src/whisper_mlx/load_models.py`. Python dictionaries become association
lists, exceptions become `Except`, and the external collaborators
(HuggingFace fetch, `mx.load`, the `whisper` network module, `nn.quantize`)
are modelled by explicit parameters or by their documented contracts.
-/

set_option autoImplicit false

namespace Vayu

/-! ## Model registry (lightning.py, `MODEL_REPOS` / `QUANT_REPOS`) -/

/-- Map of model names to HuggingFace repos:
`LightningWhisperMLX.MODEL_REPOS` (lightning.py lines 23-39). -/
def MODEL_REPOS : List (String × String) :=
  [ ("tiny", "mlx-community/whisper-tiny-mlx"),
    ("tiny.en", "mlx-community/whisper-tiny.en-mlx"),
    ("base", "mlx-community/whisper-base-mlx"),
    ("base.en", "mlx-community/whisper-base.en-mlx"),
    ("small", "mlx-community/whisper-small-mlx"),
    ("small.en", "mlx-community/whisper-small.en-mlx"),
    ("medium", "mlx-community/whisper-medium-mlx"),
    ("medium.en", "mlx-community/whisper-medium.en-mlx"),
    ("large", "mlx-community/whisper-large-v3-mlx"),
    ("large-v2", "mlx-community/whisper-large-v2-mlx"),
    ("large-v3", "mlx-community/whisper-large-v3-mlx"),
    ("large-v3-turbo", "mlx-community/whisper-large-v3-turbo"),
    ("turbo", "mlx-community/whisper-turbo"),
    ("distil-large-v2", "mlx-community/distil-whisper-large-v2"),
    ("distil-large-v3", "mlx-community/distil-whisper-large-v3") ]

/-- Quantized model repos, per name a map of quantization level to repo:
`LightningWhisperMLX.QUANT_REPOS` (lightning.py lines 42-63). -/
def QUANT_REPOS : List (String × List (String × String)) :=
  [ ("tiny",
      [ ("4bit", "mlx-community/whisper-tiny-mlx-4bit"),
        ("8bit", "mlx-community/whisper-tiny-mlx-8bit") ]),
    ("small",
      [ ("4bit", "mlx-community/whisper-small-mlx-4bit"),
        ("8bit", "mlx-community/whisper-small-mlx-8bit") ]),
    ("medium",
      [ ("4bit", "mlx-community/whisper-medium-mlx-4bit"),
        ("8bit", "mlx-community/whisper-medium-mlx-8bit") ]),
    ("large-v3",
      [ ("4bit", "mlx-community/whisper-large-v3-mlx-4bit"),
        ("8bit", "mlx-community/whisper-large-v3-mlx-8bit") ]),
    ("distil-large-v3",
      [ ("4bit", "mlx-community/distil-whisper-large-v3-4bit"),
        ("8bit", "mlx-community/distil-whisper-large-v3-8bit") ]) ]

/-! ## Path resolution (lightning.py, `LightningWhisperMLX.__init__`) -/

/-- Errors raised by `LightningWhisperMLX.__init__` (both are Python
`ValueError`; the spec's taxonomy names them `InvalidArgumentError` and
`UnknownModelError`). `unknownModel` carries the data embedded in the
message f-string: the invalid name and `list(self.MODEL_REPOS.keys())`. -/
inductive InitError where
  | invalidArgument (batch_size : Int)
  | unknownModel (name : String) (known : List String)
deriving DecidableEq, Repr

deriving instance DecidableEq for Except

/-- The Python substring test `"/" in model`; for the single-character
needle "/" it is exactly membership of the character in the string. -/
def contains_slash (model : String) : Bool :=
  model.data.contains '/'

/-- The guard `quant and model in self.QUANT_REPOS and quant in
self.QUANT_REPOS[model]` together with the access
`self.QUANT_REPOS[model][quant]` (lightning.py line 98-99).
`quant` has Python default `None`; a present but empty string is falsy,
hence the `isEmpty` test. Returns the quantized repo when the guard
holds, `none` otherwise. -/
def quant_variant (model : String) (quant : Option String) : Option String :=
  match quant with
  | none => none
  | some q =>
    if q.isEmpty then none
    else
      match QUANT_REPOS.lookup model with
      | none => none
      | some variants => variants.lookup q

/-- The `# Resolve model path` branch of `LightningWhisperMLX.__init__`
(lightning.py lines 97-108): quantized registry entry first, then the
unquantized registry, then any name containing "/" taken verbatim as a
HuggingFace repo path, else `ValueError` listing the known names. -/
def resolve_model_path (model : String) (quant : Option String) :
    Except InitError String :=
  match quant_variant model quant with
  | some repo => Except.ok repo
  | none =>
    match MODEL_REPOS.lookup model with
    | some repo => Except.ok repo
    | none =>
      if contains_slash model then Except.ok model
      else Except.error (InitError.unknownModel model (MODEL_REPOS.map Prod.fst))

/-- The attributes set by a successful `LightningWhisperMLX.__init__`. -/
structure LightningWhisperMLX where
  batch_size : Int
  quant : Option String
  name : String
  model_path : String
deriving DecidableEq, Repr

/-- Constructor `LightningWhisperMLX.__init__` (lightning.py lines 65-108): validate
`batch_size >= 1` first, then resolve the model path. No model loading
happens here; loading is deferred to `transcribe`. -/
def lightning_init (model : String) (batch_size : Int) (quant : Option String) :
    Except InitError LightningWhisperMLX :=
  if batch_size < 1 then Except.error (InitError.invalidArgument batch_size)
  else
    match resolve_model_path model quant with
    | Except.ok p =>
        Except.ok { batch_size := batch_size, quant := quant, name := model, model_path := p }
    | Except.error e => Except.error e

/-! ## Resolution theorems -/

/-- Claim C1: resolution precedence of `ModelSpec (name, optional quant)`:
(1) a set quantization with a matching registered variant wins and yields
the quantized repo; (2) otherwise a name registered in `MODEL_REPOS`
yields exactly its registered repo; (3) otherwise a name containing the
path separator "/" is returned unchanged. -/
theorem resolve_precedence (model : String) (quant : Option String) :
    (∀ q variants repo, quant = some q → ¬q.isEmpty →
      QUANT_REPOS.lookup model = some variants → variants.lookup q = some repo →
      resolve_model_path model quant = Except.ok repo) ∧
    (∀ repo, quant_variant model quant = none →
      MODEL_REPOS.lookup model = some repo →
      resolve_model_path model quant = Except.ok repo) ∧
    (quant_variant model quant = none →
      MODEL_REPOS.lookup model = none →
      contains_slash model = true →
      resolve_model_path model quant = Except.ok model) := by
  refine ⟨?_, ?_, ?_⟩
  · intro q variants repo hq hne hvars hrepo
    subst hq
    simp [resolve_model_path, quant_variant, hne, hvars, hrepo]
  · intro repo hqv hm
    simp [resolve_model_path, hqv, hm]
  · intro hqv hm hsl
    simp [resolve_model_path, hqv, hm, hsl]

/-- Witness for C1: each precedence case evaluated at a concrete input. -/
theorem resolve_precedence_witness :
    resolve_model_path "distil-large-v3" (some "4bit") =
      Except.ok "mlx-community/distil-whisper-large-v3-4bit" ∧
    resolve_model_path "base" none = Except.ok "mlx-community/whisper-base-mlx" ∧
    resolve_model_path "someone/custom-model" none =
      Except.ok "someone/custom-model" :=
  ⟨(resolve_precedence "distil-large-v3" (some "4bit")).1 "4bit"
      [("4bit", "mlx-community/distil-whisper-large-v3-4bit"),
       ("8bit", "mlx-community/distil-whisper-large-v3-8bit")]
      "mlx-community/distil-whisper-large-v3-4bit"
      rfl (by decide) (by decide) (by decide),
   (resolve_precedence "base" none).2.1 "mlx-community/whisper-base-mlx"
      rfl (by decide),
   (resolve_precedence "someone/custom-model" none).2.2 rfl (by decide) (by decide)⟩

/-- Claim C3: for a name with an unquantized registry entry, a requested
quantization with no matching registered variant silently falls back to
the unquantized identifier instead of erroring. -/
theorem resolve_quant_fallback (model q repo : String)
    (hm : MODEL_REPOS.lookup model = some repo)
    (hq : ∀ variants, QUANT_REPOS.lookup model = some variants →
      variants.lookup q = none) :
    resolve_model_path model (some q) = Except.ok repo := by
  have hqv : quant_variant model (some q) = none := by
    unfold quant_variant
    by_cases he : q.isEmpty
    · simp [he]
    · cases hvars : QUANT_REPOS.lookup model with
      | none => simp [he, hvars]
      | some variants => simp [he, hvars, hq variants hvars]
  simp [resolve_model_path, hqv, hm]

/-- Witness for C3: "base" has no quantized variants, so requesting 4bit
falls back to the unquantized repo. -/
theorem resolve_quant_fallback_witness :
    resolve_model_path "base" (some "4bit") =
      Except.ok "mlx-community/whisper-base-mlx" :=
  resolve_quant_fallback "base" "4bit" "mlx-community/whisper-base-mlx"
    (by decide) (by decide)

/-- Counterexample to C5 as stated: the registry DOES have a 4bit entry
for "small" (lightning.py line 48), so resolution does not return the
unquantized repo. -/
theorem resolve_small_4bit_counterexample :
    resolve_model_path "small" (some "4bit") ≠
      Except.ok "mlx-community/whisper-small-mlx" := by
  decide

/-- Claim C5 (amended): resolving `{name: "small", quant: "4bit"}` returns
the registered quantized identifier "mlx-community/whisper-small-mlx-4bit". -/
theorem resolve_small_4bit :
    resolve_model_path "small" (some "4bit") =
      Except.ok "mlx-community/whisper-small-mlx-4bit" := by
  decide

/-- Claim C6: a name absent from both registries and containing no "/"
fails with `UnknownModelError` carrying the invalid name and the list of
known model names. -/
theorem resolve_unknown_model (model : String) (quant : Option String)
    (hm : MODEL_REPOS.lookup model = none)
    (hq : QUANT_REPOS.lookup model = none)
    (hsl : contains_slash model = false) :
    resolve_model_path model quant =
      Except.error (InitError.unknownModel model (MODEL_REPOS.map Prod.fst)) := by
  have hqv : quant_variant model quant = none := by
    unfold quant_variant
    cases quant with
    | none => rfl
    | some q =>
      by_cases he : q.isEmpty
      · simp [he]
      · simp [he, hq]
  simp [resolve_model_path, hqv, hm, hsl]

/-- Witness for C6 at the unknown name "huge". -/
theorem resolve_unknown_model_witness :
    resolve_model_path "huge" (some "4bit") =
      Except.error (InitError.unknownModel "huge" (MODEL_REPOS.map Prod.fst)) :=
  resolve_unknown_model "huge" (some "4bit") (by decide) (by decide) (by decide)

/-- The only error `resolve_model_path` ever produces is `unknownModel`
with the invalid name and the registry key list. -/
lemma resolve_model_path_error_shape (model : String) (quant : Option String)
    (e : InitError) (h : resolve_model_path model quant = Except.error e) :
    e = InitError.unknownModel model (MODEL_REPOS.map Prod.fst) := by
  revert h
  unfold resolve_model_path
  cases hqv : quant_variant model quant with
  | some repo => simp
  | none =>
    cases hm : MODEL_REPOS.lookup model with
    | some repo => simp
    | none =>
      by_cases hsl : contains_slash model
      · simp [hsl]
      · simp only [hsl, if_neg, Bool.false_eq_true, if_false, Except.error.injEq]
        intro h
        exact h.symm

/-- Claim C7: the constructor validates `batch_size >= 1` before resolving:
a non-positive batch size yields `InvalidArgumentError` for every name and
quantization (even names whose resolution would fail), and a batch size
`>= 1` never yields `InvalidArgumentError`. No loading happens in
`__init__` at all (loading is deferred to `transcribe`). -/
theorem lightning_init_batch_size (model : String) (bs : Int) (quant : Option String) :
    (bs < 1 → lightning_init model bs quant = Except.error (InitError.invalidArgument bs)) ∧
    (1 ≤ bs → ∀ n, lightning_init model bs quant ≠ Except.error (InitError.invalidArgument n)) := by
  constructor
  · intro hlt
    simp [lightning_init, hlt]
  · intro hge n
    have hnlt : ¬bs < 1 := not_lt.mpr hge
    unfold lightning_init
    simp only [if_neg hnlt]
    cases hres : resolve_model_path model quant with
    | ok p => simp
    | error e =>
      have he := resolve_model_path_error_shape model quant e hres
      subst he
      simp

/-- Witness for C7: batch size 0 is rejected even for a valid model name,
and batch size 12 with an unknown model fails, but not with
`InvalidArgumentError`. -/
theorem lightning_init_batch_size_witness :
    lightning_init "tiny" 0 none = Except.error (InitError.invalidArgument 0) ∧
    lightning_init "tiny" 12 none ≠ Except.error (InitError.invalidArgument 0) :=
  ⟨(lightning_init_batch_size "tiny" 0 none).1 (by decide),
   (lightning_init_batch_size "tiny" 12 none).2 (by decide) 0⟩

end Vayu

/-! ## Weight loader (load_models.py, `load_model`)

The external collaborators are modelled explicitly: the `whisper` module's
network constructor becomes a parameter `arch` giving the module tree
(path, layer kind) for given dimensions; the filesystem/HuggingFace side
of `Path.exists` + `snapshot_download` becomes a parameter `fetch` from a
source string to the resolved local directory; `mx.load`, `nn.quantize`,
`tree_unflatten`, `model.update` and `mx.eval` are modelled by their
documented contracts below. -/

/-- Module kinds relevant to the quantization predicate
`isinstance(m, (nn.Linear, nn.Embedding))`; `conv` and `layerNorm` stand
for the remaining non-quantizable module types of the network. -/
inductive LayerKind where
  | linear
  | embedding
  | conv
  | layerNorm
deriving DecidableEq, Repr

/-- Flat weight mapping as produced by `mx.load`: keys to arrays. -/
abbrev Weights (W : Type) := List (String × W)

/-- Failures of `load_model` (load_models.py). `invalidArgument` is the
`ValueError` for an empty path string; `sourceUnavailable` is a failed
`snapshot_download`; `fileNotFound` is a failed `open` of config.json;
`weightsNotFound` is the failure of the external `mx.load` applied to a
weights path that does not exist (the spec taxonomy's
`WeightsNotFoundError`). -/
inductive LoadError where
  | invalidArgument
  | sourceUnavailable (repo : String)
  | fileNotFound (file : String)
  | weightsNotFound (file : String)
deriving DecidableEq, Repr

/-- The `quantization` object popped from config.json and splatted into
`nn.quantize(model, **quantization, ...)`. -/
structure QuantArgs where
  group_size : Nat
  bits : Nat
deriving DecidableEq, Repr

/-- A resolved local model directory: which files exist in it, the parsed
content of its config.json (with `model_type` and `quantization` as the
two popped fields and the remaining dimension fields abstracted as `A`),
and the weight mapping each weights file holds. -/
structure ModelDirectory (W A : Type) where
  files : List String
  configModelType : Option String
  configQuantization : Option QuantArgs
  configDims : A
  fileWeights : String → Weights W

/-- One module of the network: its tree path, kind, and whether it has
been replaced by a quantized version. -/
structure WLayer where
  path : String
  kind : LayerKind
  quantized : Bool
deriving DecidableEq, Repr

/-- The `whisper.Whisper` model object (external module, modelled by its
observable state): dimensions, dtype, module tree, applied weights, and
whether `mx.eval` has forced its parameters. -/
structure Whisper (W A D : Type) where
  dims : A
  dtype : D
  layers : List WLayer
  weights : Weights W
  evaluated : Bool
deriving DecidableEq, Repr

/-- The constructor call `whisper.Whisper(model_args, dtype)`: builds the
module tree from the dimensions with nothing quantized, no weights
applied, nothing evaluated. -/
def whisper_new {W A D : Type} (arch : A → D → List (String × LayerKind))
    (dims : A) (dtype : D) : Whisper W A D :=
  { dims := dims, dtype := dtype,
    layers := (arch dims dtype).map (fun pk => ⟨pk.1, pk.2, false⟩),
    weights := [], evaluated := false }

/-- The external `mx.load(str(wf))`: returns the file's weight mapping if
the file exists, otherwise fails (missing weights file). -/
def mx_load {W A : Type} (dir : ModelDirectory W A) (f : String) :
    Except LoadError (Weights W) :=
  if f ∈ dir.files then Except.ok (dir.fileWeights f)
  else Except.error (LoadError.weightsNotFound f)

/-- The weights-file probe of load_models.py lines 37-42: prefer
model.safetensors, fall back to weights.safetensors, then weights.npz
(the last is not existence-checked; a missing weights.npz fails inside
`mx.load`). -/
def locate_weights_file {W A : Type} (dir : ModelDirectory W A) : String :=
  if "model.safetensors" ∈ dir.files then "model.safetensors"
  else if "weights.safetensors" ∈ dir.files then "weights.safetensors"
  else "weights.npz"

/-- The test `isinstance(m, (nn.Linear, nn.Embedding))`. -/
def isinstance_quantizable : LayerKind → Bool
  | LayerKind.linear => true
  | LayerKind.embedding => true
  | _ => false

/-- The lambda `class_predicate` of load_models.py lines 48-51:
a module is quantized only if it is a linear/embedding module AND the
loaded weights contain its per-layer scale entry `f"{p}.scales"`. -/
def class_predicate {W : Type} (weights : Weights W)
    (p : String) (m : LayerKind) : Bool :=
  isinstance_quantizable m && (weights.lookup (p ++ ".scales")).isSome

/-- The external `nn.quantize(model, **q, class_predicate=pred)` contract:
replace exactly the modules on which `pred` holds by quantized versions;
all other modules are left untouched. -/
def nn_quantize {W A D : Type} (_q : QuantArgs)
    (pred : String → LayerKind → Bool) (model : Whisper W A D) :
    Whisper W A D :=
  { model with
    layers := model.layers.map
      (fun l => if pred l.path l.kind then { l with quantized := true } else l) }

/-- The external `tree_unflatten(list(weights.items()))`: restructures the
flat mapping into the nested shape; the entries themselves are preserved,
so it is modelled as the mapping itself. -/
def tree_unflatten {W : Type} (w : Weights W) : Weights W := w

/-- The call `model.update(weights)`: applies the weight mapping to the
instantiated network. -/
def model_update {W A D : Type} (m : Whisper W A D) (w : Weights W) :
    Whisper W A D :=
  { m with weights := w }

/-- The call `mx.eval(model.parameters())`: forces full evaluation of all
parameters before the model is returned. -/
def mx_eval_params {W A D : Type} (m : Whisper W A D) : Whisper W A D :=
  { m with evaluated := true }

/-- The conditional quantization step of load_models.py lines 47-52:
`if quantization is not None: nn.quantize(model, **quantization,
class_predicate=class_predicate)`. -/
def apply_quantization {W A D : Type} (quantization : Option QuantArgs)
    (weights : Weights W) (model : Whisper W A D) : Whisper W A D :=
  match quantization with
  | some q => nn_quantize q (class_predicate weights) model
  | none => model

/-- The part of `load_model` operating on the resolved local directory
(load_models.py lines 30-57): read and pop config.json, probe for the
weights file and `mx.load` it, construct the network, quantize per the
class predicate when a quantization descriptor was present, then apply
the weights and force evaluation of the parameters. -/
def load_model_dir {W A D : Type} (arch : A → D → List (String × LayerKind))
    (dir : ModelDirectory W A) (dtype : D) :
    Except LoadError (Whisper W A D) :=
  if "config.json" ∈ dir.files then
    match mx_load dir (locate_weights_file dir) with
    | Except.error e => Except.error e
    | Except.ok weights =>
      Except.ok (mx_eval_params (model_update
        (apply_quantization dir.configQuantization weights
          (whisper_new arch dir.configDims dtype))
        (tree_unflatten weights)))
  else Except.error (LoadError.fileNotFound "config.json")

/-- Embedding of `load_model` (load_models.py lines 15-57): validate the
source string, resolve it to a local directory (`Path(path).exists()` /
`snapshot_download`, folded into the `fetch` parameter), then load from
that directory. The Python `isinstance(dtype, mx.Dtype)` check is
discharged statically by typing. -/
def load_model {W A D : Type} (arch : A → D → List (String × LayerKind))
    (fetch : String → Except LoadError (ModelDirectory W A))
    (path_or_hf_repo : String) (dtype : D) :
    Except LoadError (Whisper W A D) :=
  if path_or_hf_repo.isEmpty then Except.error LoadError.invalidArgument
  else
    match fetch path_or_hf_repo with
    | Except.error e => Except.error e
    | Except.ok model_path => load_model_dir arch model_path dtype

/-- With a non-empty source that resolves, `load_model` is the
directory-level load. -/
lemma load_model_fetch_ok {W A D : Type}
    (arch : A → D → List (String × LayerKind))
    (fetch : String → Except LoadError (ModelDirectory W A))
    (src : String) (d : D) (dir : ModelDirectory W A)
    (hsrc : src.isEmpty = false) (hfetch : fetch src = Except.ok dir) :
    load_model arch fetch src d = load_model_dir arch dir d := by
  unfold load_model
  rw [if_neg (by simp [hsrc]), hfetch]

/-- A successful `mx.load` of file `f` returns exactly that file's
weight mapping. -/
lemma mx_load_ok {W A : Type} (dir : ModelDirectory W A) (f : String)
    (w : Weights W) (h : mx_load dir f = Except.ok w) :
    w = dir.fileWeights f := by
  unfold mx_load at h
  by_cases hf : f ∈ dir.files
  · rw [if_pos hf] at h
    exact (Except.ok.inj h).symm
  · rw [if_neg hf] at h
    exact absurd h (by simp)

/-! ## Model cache (load_models.py, `ModelHolder`) -/

/-- The two class attributes of `ModelHolder`: the cached model and the
source it was loaded from, both initially `None`. -/
structure HolderState (M : Type) where
  model : Option M
  model_path : Option String
deriving DecidableEq, Repr

/-- The body of the cache-miss branch of `ModelHolder.get_model`:
`cls.model = load_model(model_path, dtype=dtype); cls.model_path =
model_path; return cls.model`. The loader is an explicit function with
its own state `σ` (so that fetch/parse work can be counted); if it fails,
the exception propagates before either assignment, leaving the slot
unchanged. -/
def get_model_load {σ M D E : Type} (load : σ → String → D → Except E M × σ)
    (ls : σ) (st : HolderState M) (path : String) (d : D) :
    Except E M × σ × HolderState M :=
  match load ls path d with
  | (Except.ok m, ls') => (Except.ok m, ls', ⟨some m, some path⟩)
  | (Except.error e, ls') => (Except.error e, ls', st)

/-- Embedding of `ModelHolder.get_model` (load_models.py lines 66-72):
`if cls.model is None or model_path != cls.model_path:` reload and
replace the slot, else return the cached model. -/
def get_model {σ M D E : Type} (load : σ → String → D → Except E M × σ)
    (ls : σ) (st : HolderState M) (path : String) (d : D) :
    Except E M × σ × HolderState M :=
  match st.model with
  | none => get_model_load load ls st path d
  | some m =>
    if st.model_path = some path then (Except.ok m, ls, st)
    else get_model_load load ls st path d

/-- On a hit (slot holds a model loaded from the requested path) the
cached model is returned and neither loader state nor slot changes. -/
lemma get_model_hit {σ M D E : Type} (load : σ → String → D → Except E M × σ)
    (ls : σ) (st : HolderState M) (path : String) (d : D) (m : M)
    (h1 : st.model = some m) (h2 : st.model_path = some path) :
    get_model load ls st path d = (Except.ok m, ls, st) := by
  obtain ⟨mo, mp⟩ := st
  cases h1
  cases h2
  simp [get_model]

/-- On a miss (empty slot or different stored source) `get_model` is the
reload branch. -/
lemma get_model_miss {σ M D E : Type} (load : σ → String → D → Except E M × σ)
    (ls : σ) (st : HolderState M) (path : String) (d : D)
    (h : st.model = none ∨ st.model_path ≠ some path) :
    get_model load ls st path d = get_model_load load ls st path d := by
  obtain ⟨mo, mp⟩ := st
  cases mo with
  | none => rfl
  | some m =>
    rcases h with h | h
    · exact absurd h (by simp)
    · simp only [get_model]
      rw [if_neg h]

/-- The reload branch on success stores exactly the returned model and
the requested path in the slot. -/
lemma get_model_load_ok_state {σ M D E : Type}
    (load : σ → String → D → Except E M × σ)
    (ls : σ) (st : HolderState M) (path : String) (d : D)
    (m : M) (ls' : σ) (st' : HolderState M)
    (h : get_model_load load ls st path d = (Except.ok m, ls', st')) :
    st'.model = some m ∧ st'.model_path = some path := by
  unfold get_model_load at h
  cases hl : load ls path d with
  | mk r ls0 =>
    rw [hl] at h
    cases r with
    | ok m0 =>
      simp only [Prod.mk.injEq, Except.ok.injEq] at h
      obtain ⟨rfl, rfl, rfl⟩ := h
      exact ⟨rfl, rfl⟩
    | error e => simp at h

/-- After a successful `get_model`, the slot holds exactly the returned
model and the requested path. -/
lemma get_model_ok_state {σ M D E : Type}
    (load : σ → String → D → Except E M × σ)
    (ls : σ) (st : HolderState M) (path : String) (d : D)
    (m : M) (ls' : σ) (st' : HolderState M)
    (h : get_model load ls st path d = (Except.ok m, ls', st')) :
    st'.model = some m ∧ st'.model_path = some path := by
  obtain ⟨mo, mp⟩ := st
  cases mo with
  | none => exact get_model_load_ok_state load ls ⟨none, mp⟩ path d m ls' st' h
  | some m0 =>
    by_cases hp : mp = some path
    · rw [get_model_hit load ls ⟨some m0, mp⟩ path d m0 rfl hp] at h
      simp only [Prod.mk.injEq, Except.ok.injEq] at h
      obtain ⟨rfl, rfl, rfl⟩ := h
      exact ⟨rfl, hp⟩
    · rw [get_model_miss load ls ⟨some m0, mp⟩ path d (Or.inr hp)] at h
      exact get_model_load_ok_state load ls ⟨some m0, mp⟩ path d m ls' st' h

/-! ## Cache theorems -/

/-- Claim C2: the single-slot cache. On a miss (empty slot or different
stored source) the loader runs and the slot is replaced on success; on a
hit the cached model is returned with loader state and slot untouched;
and a successful `get_model` followed by another `get_model` for the same
source returns the very same model with no further loader work. -/
theorem get_model_single_slot {σ M D E : Type}
    (load : σ → String → D → Except E M × σ)
    (ls : σ) (st : HolderState M) (path : String) (d : D) :
    ((st.model = none ∨ st.model_path ≠ some path) →
      get_model load ls st path d =
        match load ls path d with
        | (Except.ok m, ls') => (Except.ok m, ls', ⟨some m, some path⟩)
        | (Except.error e, ls') => (Except.error e, ls', st)) ∧
    (∀ m, st.model = some m → st.model_path = some path →
      get_model load ls st path d = (Except.ok m, ls, st)) ∧
    (∀ m ls' st', get_model load ls st path d = (Except.ok m, ls', st') →
      get_model load ls' st' path d = (Except.ok m, ls', st')) := by
  refine ⟨?_, ?_, ?_⟩
  · intro h
    rw [get_model_miss load ls st path d h]
    rfl
  · intro m h1 h2
    exact get_model_hit load ls st path d m h1 h2
  · intro m ls' st' h
    obtain ⟨h1, h2⟩ := get_model_ok_state load ls st path d m ls' st' h
    exact get_model_hit load ls' st' path d m h1 h2

/-- Claim C9: if the loader fails during a cache-miss load, the error
propagates and the slot (previous source and model, or the empty slot)
is left exactly as it was. -/
theorem get_model_failure_preserves_slot {σ M D E : Type}
    (load : σ → String → D → Except E M × σ)
    (ls : σ) (st : HolderState M) (path : String) (d : D)
    (e : E) (ls' : σ)
    (hmiss : st.model = none ∨ st.model_path ≠ some path)
    (hload : load ls path d = (Except.error e, ls')) :
    get_model load ls st path d = (Except.error e, ls', st) := by
  rw [get_model_miss load ls st path d hmiss]
  unfold get_model_load
  rw [hload]

/-- Claim C10: the cache key is the path alone. After a successful
`get_model` with dtype `d1`, a `get_model` for the same path with any
dtype `d2` returns the same cached model (the one loaded with `d1`)
without invoking the loader. -/
theorem get_model_dtype_not_in_key {σ M D E : Type}
    (load : σ → String → D → Except E M × σ)
    (ls : σ) (st : HolderState M) (path : String) (d1 d2 : D)
    (m : M) (ls' : σ) (st' : HolderState M)
    (h : get_model load ls st path d1 = (Except.ok m, ls', st')) :
    get_model load ls' st' path d2 = (Except.ok m, ls', st') := by
  obtain ⟨h1, h2⟩ := get_model_ok_state load ls st path d1 m ls' st' h
  exact get_model_hit load ls' st' path d2 m h1 h2

/-! ## Concrete loaders for the cache witnesses -/

/-- Model of `mx.Dtype` (external): the numeric precisions the loader is
called with. -/
inductive Dtype where
  | float32
  | float16
  | bfloat16
deriving DecidableEq, Repr

/-- A counting test double for the loader: its state is the number of
fetch/parse calls performed, and each returned model records the call
number and the dtype it was loaded with. -/
def counting_load : Nat → String → Dtype → Except LoadError (Nat × Dtype) × Nat :=
  fun n _path d => (Except.ok (n, d), n + 1)

/-- A test double for a loader whose fetch fails
(`SourceUnavailableError`), still counting its calls. -/
def failing_load : Nat → String → Dtype → Except LoadError (Nat × Dtype) × Nat :=
  fun n _path _d =>
    (Except.error (LoadError.sourceUnavailable "mlx-community/whisper-base-mlx"), n + 1)

/-- Witness for C2: from the empty slot, one load happens (count 0 → 1),
and the second request for the same source returns the identical model
with the count still 1. -/
theorem get_model_single_slot_witness :
    get_model counting_load 0 (HolderState.mk none none)
      "mlx-community/whisper-tiny-mlx" Dtype.float32 =
      (Except.ok (0, Dtype.float32), 1,
        HolderState.mk (some (0, Dtype.float32)) (some "mlx-community/whisper-tiny-mlx")) ∧
    get_model counting_load 1
      (HolderState.mk (some (0, Dtype.float32)) (some "mlx-community/whisper-tiny-mlx"))
      "mlx-community/whisper-tiny-mlx" Dtype.float32 =
      (Except.ok (0, Dtype.float32), 1,
        HolderState.mk (some (0, Dtype.float32)) (some "mlx-community/whisper-tiny-mlx")) := by
  have h1 : get_model counting_load 0 (HolderState.mk none none)
      "mlx-community/whisper-tiny-mlx" Dtype.float32 =
      (Except.ok (0, Dtype.float32), 1,
        HolderState.mk (some (0, Dtype.float32)) (some "mlx-community/whisper-tiny-mlx")) :=
    (get_model_single_slot counting_load 0 (HolderState.mk none none)
      "mlx-community/whisper-tiny-mlx" Dtype.float32).1 (Or.inl rfl)
  exact ⟨h1,
    (get_model_single_slot counting_load 0 (HolderState.mk none none)
      "mlx-community/whisper-tiny-mlx" Dtype.float32).2.2 _ _ _ h1⟩

/-- Witness for C9: a failing load for a different source leaves the
previously cached source and model in place. -/
theorem get_model_failure_preserves_slot_witness :
    get_model failing_load 3
      (HolderState.mk (some (0, Dtype.float32)) (some "mlx-community/whisper-tiny-mlx"))
      "mlx-community/whisper-base-mlx" Dtype.float32 =
      (Except.error (LoadError.sourceUnavailable "mlx-community/whisper-base-mlx"), 4,
        HolderState.mk (some (0, Dtype.float32)) (some "mlx-community/whisper-tiny-mlx")) :=
  get_model_failure_preserves_slot failing_load 3
    (HolderState.mk (some (0, Dtype.float32)) (some "mlx-community/whisper-tiny-mlx"))
    "mlx-community/whisper-base-mlx" Dtype.float32
    (LoadError.sourceUnavailable "mlx-community/whisper-base-mlx") 4
    (Or.inr (by decide)) rfl

/-- Witness for C10: a second request for the same path with a different
dtype returns the float32-loaded model and performs no new load. -/
theorem get_model_dtype_not_in_key_witness :
    Dtype.float16 ≠ Dtype.float32 ∧
    get_model counting_load 1
      (HolderState.mk (some (0, Dtype.float32)) (some "mlx-community/whisper-tiny-mlx"))
      "mlx-community/whisper-tiny-mlx" Dtype.float16 =
      (Except.ok (0, Dtype.float32), 1,
        HolderState.mk (some (0, Dtype.float32)) (some "mlx-community/whisper-tiny-mlx")) :=
  ⟨by decide,
   get_model_dtype_not_in_key counting_load 0 (HolderState.mk none none)
     "mlx-community/whisper-tiny-mlx" Dtype.float32 Dtype.float16
     (0, Dtype.float32) 1
     (HolderState.mk (some (0, Dtype.float32)) (some "mlx-community/whisper-tiny-mlx"))
     rfl⟩

/-! ## Loader theorems -/

/-- Claim C4: the weights artifact is probed in the order
model.safetensors, weights.safetensors, weights.npz, and when none of the
three exists in the resolved directory the load fails (the external array
load on the missing legacy path; `WeightsNotFoundError` in the spec's
taxonomy) with no model value produced and, through the cache, no slot
mutation. -/
theorem load_model_weights_probe {W A D : Type}
    (arch : A → D → List (String × LayerKind))
    (fetch : String → Except LoadError (ModelDirectory W A))
    (src : String) (d : D) (dir : ModelDirectory W A)
    (hsrc : src.isEmpty = false)
    (hfetch : fetch src = Except.ok dir)
    (hconfig : "config.json" ∈ dir.files) :
    ("model.safetensors" ∈ dir.files →
      locate_weights_file dir = "model.safetensors") ∧
    ("model.safetensors" ∉ dir.files → "weights.safetensors" ∈ dir.files →
      locate_weights_file dir = "weights.safetensors") ∧
    ("model.safetensors" ∉ dir.files → "weights.safetensors" ∉ dir.files →
      locate_weights_file dir = "weights.npz") ∧
    ("model.safetensors" ∉ dir.files → "weights.safetensors" ∉ dir.files →
      "weights.npz" ∉ dir.files →
      load_model arch fetch src d =
        Except.error (LoadError.weightsNotFound "weights.npz") ∧
      ∀ (st : HolderState (Whisper W A D)),
        st.model = none ∨ st.model_path ≠ some src →
        get_model (fun (c : Nat) p dd => (load_model arch fetch p dd, c + 1)) 0
            st src d =
          (Except.error (LoadError.weightsNotFound "weights.npz"), 1, st)) := by
  refine ⟨?_, ?_, ?_, ?_⟩
  · intro hm
    unfold locate_weights_file
    rw [if_pos hm]
  · intro hm hw
    unfold locate_weights_file
    rw [if_neg hm, if_pos hw]
  · intro hm hw
    unfold locate_weights_file
    rw [if_neg hm, if_neg hw]
  · intro hm hw hn
    have hloc : locate_weights_file dir = "weights.npz" := by
      unfold locate_weights_file
      rw [if_neg hm, if_neg hw]
    have hml : mx_load dir (locate_weights_file dir) =
        Except.error (LoadError.weightsNotFound "weights.npz") := by
      rw [hloc]
      unfold mx_load
      rw [if_neg hn]
    have hload : load_model arch fetch src d =
        Except.error (LoadError.weightsNotFound "weights.npz") := by
      rw [load_model_fetch_ok arch fetch src d dir hsrc hfetch]
      unfold load_model_dir
      rw [if_pos hconfig]
      simp only [hml]
    refine ⟨hload, ?_⟩
    intro st hmiss
    rw [get_model_miss _ _ _ _ _ hmiss]
    unfold get_model_load
    simp only [hload]

/-- Claim C8: with a quantization descriptor in the configuration, a
layer ends up quantized exactly when it is of quantizable kind
(linear/embedding) and the loaded weights contain its per-layer scale
entry; every layer failing either condition stays unquantized. -/
theorem load_model_quantize_exactly {W A D : Type}
    (arch : A → D → List (String × LayerKind))
    (fetch : String → Except LoadError (ModelDirectory W A))
    (src : String) (d : D) (dir : ModelDirectory W A)
    (q : QuantArgs) (m : Whisper W A D)
    (hfetch : fetch src = Except.ok dir)
    (hq : dir.configQuantization = some q)
    (hok : load_model arch fetch src d = Except.ok m) :
    m.layers.all (fun l => l.quantized ==
      (isinstance_quantizable l.kind &&
        ((dir.fileWeights (locate_weights_file dir)).lookup
          (l.path ++ ".scales")).isSome)) = true := by
  by_cases hsrc : src.isEmpty
  · unfold load_model at hok
    rw [if_pos hsrc] at hok
    exact absurd hok (by simp)
  · have hsrc' : src.isEmpty = false := by
      cases he : src.isEmpty
      · rfl
      · exact absurd he hsrc
    rw [load_model_fetch_ok arch fetch src d dir hsrc' hfetch] at hok
    unfold load_model_dir at hok
    by_cases hconfig : "config.json" ∈ dir.files
    · rw [if_pos hconfig] at hok
      cases hml : mx_load dir (locate_weights_file dir) with
      | error e =>
        simp only [hml] at hok
        exact absurd hok (by simp)
      | ok weights =>
        simp only [hml] at hok
        have hwts := mx_load_ok dir (locate_weights_file dir) weights hml
        subst hwts
        simp only [hq, apply_quantization] at hok
        obtain rfl := Except.ok.inj hok
        simp only [mx_eval_params, model_update, nn_quantize, whisper_new,
          tree_unflatten]
        rw [List.all_eq_true]
        intro l hl
        simp only [List.mem_map] at hl
        obtain ⟨y, ⟨pk, hpk, rfl⟩, rfl⟩ := hl
        dsimp only
        by_cases hp : class_predicate
            (dir.fileWeights (locate_weights_file dir)) pk.1 pk.2 = true
        · rw [if_pos hp]
          unfold class_predicate at hp
          dsimp only
          rw [hp]
          rfl
        · rw [if_neg hp]
          have hpf : class_predicate
              (dir.fileWeights (locate_weights_file dir)) pk.1 pk.2 = false := by
            cases hcp : class_predicate
                (dir.fileWeights (locate_weights_file dir)) pk.1 pk.2
            · rfl
            · exact absurd hcp hp
          unfold class_predicate at hpf
          dsimp only
          rw [hpf]
          rfl
    · rw [if_neg hconfig] at hok
      exact absurd hok (by simp)

/-! ## Concrete directories for the loader witnesses -/

/-- A small concrete network architecture: one linear module, one
embedding module, one layer-norm module. -/
def demo_arch : Unit → Dtype → List (String × LayerKind) :=
  fun _ _ =>
    [("encoder.l1", LayerKind.linear),
     ("decoder.emb", LayerKind.embedding),
     ("encoder.ln", LayerKind.layerNorm)]

/-- A resolved directory holding only config.json: none of the three
recognized weights files exists. -/
def demo_missing_dir : ModelDirectory Nat Unit :=
  { files := ["config.json"],
    configModelType := some "whisper",
    configQuantization := none,
    configDims := (),
    fileWeights := fun _ => [] }

/-- A fetch that resolves every source to the weightless directory. -/
def demo_fetch_missing : String → Except LoadError (ModelDirectory Nat Unit) :=
  fun _ => Except.ok demo_missing_dir

/-- A resolved directory with a quantization descriptor whose weights
carry scales for the linear module only. -/
def demo_quant_dir : ModelDirectory Nat Unit :=
  { files := ["config.json", "model.safetensors"],
    configModelType := some "whisper",
    configQuantization := some (QuantArgs.mk 64 4),
    configDims := (),
    fileWeights := fun f =>
      if f = "model.safetensors" then
        [("encoder.l1.scales", 10), ("encoder.l1.weight", 11),
         ("decoder.emb.weight", 12), ("encoder.ln.weight", 13)]
      else [] }

/-- A fetch that resolves every source to the quantized directory. -/
def demo_fetch_quant : String → Except LoadError (ModelDirectory Nat Unit) :=
  fun _ => Except.ok demo_quant_dir

/-- Witness for C4: with no weights file present the probe lands on
weights.npz, the load fails with the missing-weights error, and the
empty cache slot stays empty. -/
theorem load_model_weights_probe_witness :
    locate_weights_file demo_missing_dir = "weights.npz" ∧
    load_model demo_arch demo_fetch_missing "mlx-community/whisper-base-mlx"
        Dtype.float32 =
      Except.error (LoadError.weightsNotFound "weights.npz") ∧
    get_model
      (fun (c : Nat) p dd => (load_model demo_arch demo_fetch_missing p dd, c + 1))
      0 (HolderState.mk none none) "mlx-community/whisper-base-mlx" Dtype.float32 =
      (Except.error (LoadError.weightsNotFound "weights.npz"), 1,
        HolderState.mk none none) := by
  have h := load_model_weights_probe demo_arch demo_fetch_missing
    "mlx-community/whisper-base-mlx" Dtype.float32 demo_missing_dir
    rfl rfl (by decide)
  have h4 := h.2.2.2 (by decide) (by decide) (by decide)
  exact ⟨h.2.2.1 (by decide) (by decide), h4.1,
    h4.2 (HolderState.mk none none) (Or.inl rfl)⟩

/-- Witness for C8: in the loaded model the linear module with a scales
entry is quantized, while the embedding module without scales and the
layer-norm module are not. -/
theorem load_model_quantize_exactly_witness :
    (Whisper.mk () Dtype.float32
      [WLayer.mk "encoder.l1" LayerKind.linear true,
       WLayer.mk "decoder.emb" LayerKind.embedding false,
       WLayer.mk "encoder.ln" LayerKind.layerNorm false]
      [("encoder.l1.scales", 10), ("encoder.l1.weight", 11),
       ("decoder.emb.weight", 12), ("encoder.ln.weight", 13)]
      true).layers.all (fun l => l.quantized ==
        (isinstance_quantizable l.kind &&
          ((demo_quant_dir.fileWeights (locate_weights_file demo_quant_dir)).lookup
            (l.path ++ ".scales")).isSome)) = true :=
  load_model_quantize_exactly demo_arch demo_fetch_quant
    "mlx-community/whisper-tiny-mlx-4bit" Dtype.float32 demo_quant_dir
    (QuantArgs.mk 64 4)
    (Whisper.mk () Dtype.float32
      [WLayer.mk "encoder.l1" LayerKind.linear true,
       WLayer.mk "decoder.emb" LayerKind.embedding false,
       WLayer.mk "encoder.ln" LayerKind.layerNorm false]
      [("encoder.l1.scales", 10), ("encoder.l1.weight", 11),
       ("decoder.emb.weight", 12), ("encoder.ln.weight", 13)]
      true)
    rfl rfl (by decide)
